import Mathlib

/-
  Verification development for the ML-API request router
  (repository AI-MED-AGH/ML-API).

  Shallow embedding of the routing core:
  - src/common/model_routes.py  (ModelRoutes.get_route)
  - src/router/router.py        (PredictRequest, MLRouter.predict)
  - src/common/uvicorn_server.py (global_exception_handler, ErrorResponse)
  - src/common/response_types.py (ErrorResponse)

  JSON bodies are modelled as structured values; the backing route store
  (model_routes.json) is modelled as an optional association list, where
  none stands for an absent file (FileNotFoundError on open) and
  some dict for a present file whose JSON object parsed to that dict.
  The upstream service is a parameter: a function from the outbound
  request the router issues to the upstream's observed behaviour.
-/

namespace MLAPI

/-- Structured JSON values, as decoded by request.json / json.loads and
re-encoded by JSONResponse. Numbers are modelled as integers (no claim
touches fractional values). -/
inductive Json where
  | null
  | bool (b : Bool)
  | num (n : Int)
  | str (s : String)
  | arr (elems : List Json)
  | obj (fields : List (String × Json))
deriving Repr

namespace ModelRoutes

/-- The UnknownModelRoute exception of src/common/model_routes.py, carrying
its message string. -/
structure UnknownModelRoute where
  msg : String
deriving Repr, DecidableEq

/-- ModelRoutes.get_route (src/common/model_routes.py lines 20-32).
The store argument is the state of the backing file at call time:
none if the file is absent (open raises FileNotFoundError, caught and
re-raised as UnknownModelRoute), some routes_dict if the file is present
and its JSON object parses to routes_dict. On a present store the code
raises UnknownModelRoute when the key is missing and returns the mapped
route otherwise. -/
def get_route (store : Option (List (String × String))) (model_name : String) :
    Except UnknownModelRoute String :=
  match store with
  | none => Except.error ⟨"Unknown model: '" ++ model_name ++ "'"⟩
  | some routes_dict =>
    match routes_dict.lookup model_name with
    | none => Except.error ⟨"Unknown model: '" ++ model_name ++ "'"⟩
    | some route => Except.ok route

end ModelRoutes

namespace Router

/-- The pydantic model PredictRequest (src/router/router.py lines 14-16):
model_data is a dict (a JSON object), model is a string. -/
structure PredictRequest where
  model_data : List (String × Json)
  model : String
deriving Repr

/-- Python exceptions that can escape the predict handler body and reach
the server shell's boundary: pydantic's ValidationError from
PredictRequest.model_validate (carrying the names of the absent or
mistyped fields), and the ValueError raised on an unknown model. -/
inductive PyExc where
  | validationError (badFields : List String)
  | valueError (msg : String)
deriving Repr, DecidableEq

/-- Validation problems of the model_data field: pydantic requires a dict,
so the field must be present and a JSON object. -/
def mdProblem (fields : List (String × Json)) : List String :=
  match fields.lookup "model_data" with
  | some (Json.obj _) => []
  | _ => ["model_data"]

/-- Validation problems of the model field: pydantic requires a str,
so the field must be present and a JSON string. -/
def mProblem (fields : List (String × Json)) : List String :=
  match fields.lookup "model" with
  | some (Json.str _) => []
  | _ => ["model"]

/-- The required fields of PredictRequest that are absent or mistyped in
an inbound body. A non-object body fails both fields. -/
def fieldProblems : Json → List String
  | Json.obj fields => mdProblem fields ++ mProblem fields
  | _ => ["model_data", "model"]

/-- PredictRequest.model_validate(body) (src/router/router.py line 42):
succeeds when the body is a JSON object whose model_data field is an
object and whose model field is a string; otherwise raises a pydantic
ValidationError naming the offending fields. -/
def model_validate (body : Json) : Except PyExc PredictRequest :=
  match body with
  | Json.obj fields =>
    match fields.lookup "model_data", fields.lookup "model" with
    | some (Json.obj md), some (Json.str m) => Except.ok ⟨md, m⟩
    | _, _ => Except.error (PyExc.validationError (fieldProblems (Json.obj fields)))
  | other => Except.error (PyExc.validationError (fieldProblems other))

/-- The outbound HTTP request the router issues: aiohttp.ClientSession(route)
with client.post(request.url.path, json=pred_request.model_data)
(src/router/router.py lines 51-52). -/
structure OutboundRequest where
  base : String
  path : String
  method : String
  body : List (String × Json)
deriving Repr

/-- The full URL the outbound request targets: the session base address
joined with the posted path. -/
def OutboundRequest.url (r : OutboundRequest) : String := r.base ++ r.path

/-- Observed behaviour of the upstream for one outbound call:
either it responded with a status code and a body (none when the body is
not decodable JSON, so response.json() raises), or the transport failed
(connection refused, timeout, ...), raising e.g. ClientConnectorError. -/
inductive UpstreamResult where
  | responded (status : Nat) (body : Option Json)
  | transportFault (reason : String)
deriving Repr

/-- Outcome of the predict handler body itself: either it returns a
JSONResponse with a status and a JSON body, or an exception escapes it. -/
inductive HandlerStep where
  | response (status : Nat) (body : Json)
  | raised (exc : PyExc)
deriving Repr

/-- The fixed payload of the in-handler except clause
(src/router/router.py lines 60-65). -/
def unexpectedErrorBody : Json := Json.obj [("error", Json.str "Unexpected error")]

/-- MLRouter.predict (src/router/router.py lines 40-65), given the
instance route table self._routes, the inbound request path, the decoded
inbound JSON body, and the upstream's behaviour. Returns the handler
outcome together with the list of outbound requests issued:
1. PredictRequest.model_validate(body) - a ValidationError escapes;
2. unknown model - raise ValueError;
3. otherwise post model_data to route ++ path; on a decoded response relay
   its status and body; any exception in the try block (transport fault,
   or response.json() failing) yields 500 with the fixed opaque payload. -/
def predict (routes : List (String × String)) (path : String) (body : Json)
    (upstream : OutboundRequest → UpstreamResult) :
    HandlerStep × List OutboundRequest :=
  match model_validate body with
  | Except.error exc => (HandlerStep.raised exc, [])
  | Except.ok pred_request =>
    match routes.lookup pred_request.model with
    | none =>
      (HandlerStep.raised
        (PyExc.valueError ("Unknown model: '" ++ pred_request.model ++ "'")), [])
    | some route =>
      let req : OutboundRequest :=
        { base := route, path := path, method := "POST",
          body := pred_request.model_data }
      match upstream req with
      | UpstreamResult.responded status (some respBody) =>
        (HandlerStep.response status respBody, [req])
      | UpstreamResult.responded _ none =>
        (HandlerStep.response 500 unexpectedErrorBody, [req])
      | UpstreamResult.transportFault _ =>
        (HandlerStep.response 500 unexpectedErrorBody, [req])

end Router

namespace UvicornServer

open Router

/-- str(exc) for the exceptions that can reach the boundary: a pydantic
ValidationError's string names the offending fields; str of a ValueError
is its message. -/
def str_exc : PyExc → String
  | PyExc.validationError badFields =>
    "validation error for PredictRequest: " ++ String.intercalate ", " badFields
  | PyExc.valueError msg => msg

/-- type(exc).__name__ for the exceptions that can reach the boundary. -/
def type_name : PyExc → String
  | PyExc.validationError _ => "ValidationError"
  | PyExc.valueError _ => "ValueError"

/-- ErrorResponse(...).model_dump() (src/common/response_types.py):
success defaults to False, details defaults to None. -/
def ErrorResponse_model_dump (error : String) (error_type : String) : Json :=
  Json.obj [("success", Json.bool false), ("error", Json.str error),
            ("error_type", Json.str error_type), ("details", Json.null)]

/-- The global exception handler of src/common/uvicorn_server.py
(lines 99-108): any exception escaping a route handler becomes a 500
JSONResponse whose content is the ErrorResponse dump built from str(exc)
and the exception type name. -/
def global_exception_handler (exc : PyExc) : Nat × Json :=
  (500, ErrorResponse_model_dump (str_exc exc) (type_name exc))

/-- What the caller of POST /predict observes: the handler's own
JSONResponse when it returns one, else the global exception handler's
response for the escaped exception. -/
def handlePredict (routes : List (String × String)) (path : String) (body : Json)
    (upstream : OutboundRequest → UpstreamResult) : Nat × Json :=
  match predict routes path body upstream with
  | (HandlerStep.response s b, _) => (s, b)
  | (HandlerStep.raised exc, _) => global_exception_handler exc

end UvicornServer

namespace Router

/-- The route table assigned in MLRouter.__init__
(src/router/router.py lines 32-35). -/
def MLRouter_init_routes : List (String × String) :=
  [("model1", "http://0.0.0.0:8001"), ("model2", "http://0.0.0.0:8002")]

set_option linter.unusedVariables false in
/-- A running MLRouter handling one predict request, given the state of
the route backing store (model_routes.json) at that moment. The handler
resolves against self._routes, the in-memory table fixed in __init__;
its code contains no read of the backing store, so the store argument is
unused on this path (ModelRoutes is not referenced by router.py). -/
def MLRouter_handlePredict (store : Option (List (String × String)))
    (path : String) (body : Json)
    (upstream : OutboundRequest → UpstreamResult) : Nat × Json :=
  UvicornServer.handlePredict MLRouter_init_routes path body upstream

end Router

end MLAPI

namespace MLAPI

open Router UvicornServer ModelRoutes

/-- A helper: whenever an inbound body has a required field absent or
mistyped, PredictRequest.model_validate fails with a ValidationError
naming exactly those problems. -/
theorem model_validate_error_of_problems (body : Json) (h : fieldProblems body ≠ []) :
    model_validate body = Except.error (PyExc.validationError (fieldProblems body)) := by
  cases body with
  | null => rfl
  | bool b => rfl
  | num n => rfl
  | str s => rfl
  | arr elems => rfl
  | obj fields =>
    simp only [model_validate]
    cases hmd : fields.lookup "model_data" with
    | none => simp [hmd]
    | some w =>
      cases hm : fields.lookup "model" with
      | none => cases w <;> simp [hmd, hm]
      | some v =>
        cases w <;> cases v <;>
          simp_all [fieldProblems, mdProblem, mProblem, hmd, hm]

/-- C1 (corrected): a predict request whose model is absent from the route
table makes the handler raise ValueError; the caller receives a 500 server
error response (via the global exception handler), not a 4xx, and its
payload names the unknown model. -/
theorem predict_unknown_model_500 (routes : List (String × String)) (path : String)
    (body : Json) (upstream : OutboundRequest → UpstreamResult)
    (r : PredictRequest)
    (hv : model_validate body = Except.ok r)
    (hm : routes.lookup r.model = none) :
    handlePredict routes path body upstream
      = (500, ErrorResponse_model_dump ("Unknown model: '" ++ r.model ++ "'") "ValueError")
    ∧ ∃ pre post, "Unknown model: '" ++ r.model ++ "'" = pre ++ r.model ++ post := by
  refine ⟨?_, "Unknown model: '", "'", rfl⟩
  simp [handlePredict, predict, hv, hm, global_exception_handler, str_exc, type_name]

/-- C1 witness: the spec scenario, model beta absent from the table. -/
theorem predict_unknown_model_500_witness :
    handlePredict MLRouter_init_routes "/predict"
      (Json.obj [("model", Json.str "beta"), ("model_data", Json.obj [])])
      (fun _ => UpstreamResult.transportFault "refused")
      = (500, ErrorResponse_model_dump ("Unknown model: '" ++ "beta" ++ "'") "ValueError")
    ∧ ∃ pre post, "Unknown model: '" ++ "beta" ++ "'" = pre ++ "beta" ++ post :=
  predict_unknown_model_500 MLRouter_init_routes "/predict"
    (Json.obj [("model", Json.str "beta"), ("model_data", Json.obj [])])
    (fun _ => UpstreamResult.transportFault "refused")
    ⟨[], "beta"⟩ rfl rfl

/-- C1 counterexample: in the spec scenario (model beta absent) the caller
receives status 500, which is not a 4xx-class status, refuting the claim
as stated. -/
theorem predict_unknown_model_counterexample :
    (handlePredict MLRouter_init_routes "/predict"
      (Json.obj [("model", Json.str "beta"), ("model_data", Json.obj [])])
      (fun _ => UpstreamResult.transportFault "refused")).fst = 500
    ∧ ¬(400 ≤ (handlePredict MLRouter_init_routes "/predict"
        (Json.obj [("model", Json.str "beta"), ("model_data", Json.obj [])])
        (fun _ => UpstreamResult.transportFault "refused")).fst
      ∧ (handlePredict MLRouter_init_routes "/predict"
        (Json.obj [("model", Json.str "beta"), ("model_data", Json.obj [])])
        (fun _ => UpstreamResult.transportFault "refused")).fst < 500) := by
  exact ⟨rfl, by decide⟩

/-- C2: when the model resolves and the upstream responds with status S and
a decodable body B, the caller receives exactly (S, B) - also when S is a
4xx or 5xx code, which is relayed unchanged rather than treated as a
router error. -/
theorem predict_success_passthrough (routes : List (String × String)) (path : String)
    (body : Json) (upstream : OutboundRequest → UpstreamResult)
    (r : PredictRequest) (route : String) (S : Nat) (B : Json)
    (hv : model_validate body = Except.ok r)
    (hm : routes.lookup r.model = some route)
    (hu : upstream { base := route, path := path, method := "POST", body := r.model_data }
        = UpstreamResult.responded S (some B)) :
    handlePredict routes path body upstream = (S, B) := by
  simp [handlePredict, predict, hv, hm, hu]

/-- C2 witness: model1 resolves and the upstream answers 404 (an error
status) with a body; the caller receives exactly that status and body. -/
theorem predict_success_passthrough_witness :
    handlePredict MLRouter_init_routes "/predict"
      (Json.obj [("model", Json.str "model1"), ("model_data", Json.obj [("x", Json.num 1)])])
      (fun _ => UpstreamResult.responded 404 (some (Json.str "nope")))
      = (404, Json.str "nope") :=
  predict_success_passthrough MLRouter_init_routes "/predict"
    (Json.obj [("model", Json.str "model1"), ("model_data", Json.obj [("x", Json.num 1)])])
    (fun _ => UpstreamResult.responded 404 (some (Json.str "nope")))
    ⟨[("x", Json.num 1)], "model1"⟩ "http://0.0.0.0:8001" 404 (Json.str "nope")
    rfl rfl rfl

/-- C3: a transport-level fault on the outbound call yields exactly
500 with the fixed opaque payload, for every failure reason - the reason
never influences (so never appears in) the response. -/
theorem predict_transport_fault_opaque (routes : List (String × String)) (path : String)
    (body : Json) (upstream : OutboundRequest → UpstreamResult)
    (r : PredictRequest) (route : String) (reason : String)
    (hv : model_validate body = Except.ok r)
    (hm : routes.lookup r.model = some route)
    (hu : upstream { base := route, path := path, method := "POST", body := r.model_data }
        = UpstreamResult.transportFault reason) :
    handlePredict routes path body upstream = (500, unexpectedErrorBody) := by
  simp [handlePredict, predict, hv, hm, hu]

/-- C3 witness: the spec scenario - model1 resolves but the connection is
refused; the caller receives 500 with the fixed opaque payload. -/
theorem predict_transport_fault_opaque_witness :
    handlePredict MLRouter_init_routes "/predict"
      (Json.obj [("model", Json.str "model1"), ("model_data", Json.obj [])])
      (fun _ => UpstreamResult.transportFault "connection refused")
      = (500, unexpectedErrorBody) :=
  predict_transport_fault_opaque MLRouter_init_routes "/predict"
    (Json.obj [("model", Json.str "model1"), ("model_data", Json.obj [])])
    (fun _ => UpstreamResult.transportFault "connection refused")
    ⟨[], "model1"⟩ "http://0.0.0.0:8001" "connection refused"
    rfl rfl rfl

/-- C4: on a present store, get_route returns exactly the mapped address
for every key of the route table, and fails with UnknownModelRoute (rather
than crashing) for every absent name. -/
theorem get_route_resolves (routes_dict : List (String × String)) (model_name : String) :
    (∀ addr, routes_dict.lookup model_name = some addr →
      get_route (some routes_dict) model_name = Except.ok addr)
    ∧ (routes_dict.lookup model_name = none →
      get_route (some routes_dict) model_name
        = Except.error ⟨"Unknown model: '" ++ model_name ++ "'"⟩) := by
  constructor
  · intro addr h
    simp [get_route, h]
  · intro h
    simp [get_route, h]

/-- C4 witness: a present key resolves to its address; the empty string,
absent from the table, fails with UnknownModelRoute. -/
theorem get_route_resolves_witness :
    get_route (some [("model1", "http://0.0.0.0:8001")]) "model1"
      = Except.ok "http://0.0.0.0:8001"
    ∧ get_route (some [("model1", "http://0.0.0.0:8001")]) ""
      = Except.error ⟨"Unknown model: '" ++ "" ++ "'"⟩ :=
  ⟨(get_route_resolves [("model1", "http://0.0.0.0:8001")] "model1").1
      "http://0.0.0.0:8001" rfl,
    (get_route_resolves [("model1", "http://0.0.0.0:8001")] "").2 rfl⟩

/-- C5: with the backing store entirely absent, every get_route call fails
with UnknownModelRoute, and the error is indistinguishable from the one a
present store without the key produces. -/
theorem get_route_store_missing (model_name : String) :
    get_route none model_name
      = Except.error ⟨"Unknown model: '" ++ model_name ++ "'"⟩
    ∧ ∀ routes_dict : List (String × String),
        routes_dict.lookup model_name = none →
        get_route none model_name = get_route (some routes_dict) model_name := by
  refine ⟨rfl, ?_⟩
  intro routes_dict h
  simp [get_route, h]

/-- C5 witness: store absent versus a present store lacking the key agree
on the exact error for the name beta. -/
theorem get_route_store_missing_witness :
    get_route none "beta" = Except.error ⟨"Unknown model: '" ++ "beta" ++ "'"⟩
    ∧ get_route none "beta" = get_route (some [("model1", "http://0.0.0.0:8001")]) "beta" :=
  ⟨(get_route_store_missing "beta").1,
    (get_route_store_missing "beta").2 [("model1", "http://0.0.0.0:8001")] rfl⟩

/-- C6 (corrected): an inbound body with a required PredictRequest field
absent or mistyped makes the handler raise a pydantic ValidationError; the
caller receives a 500 server error response (via the global exception
handler), not a 4xx, whose payload carries the names of the problem
fields. -/
theorem predict_malformed_500_details (routes : List (String × String)) (path : String)
    (body : Json) (upstream : OutboundRequest → UpstreamResult)
    (h : fieldProblems body ≠ []) :
    handlePredict routes path body upstream
      = (500, ErrorResponse_model_dump
          ("validation error for PredictRequest: "
            ++ String.intercalate ", " (fieldProblems body)) "ValidationError") := by
  have hv := model_validate_error_of_problems body h
  simp [handlePredict, predict, hv, global_exception_handler, str_exc, type_name]

/-- C6 witness: a body missing both required fields yields the 500 error
dump naming model_data and model. -/
theorem predict_malformed_500_details_witness :
    fieldProblems (Json.obj []) ≠ []
    ∧ handlePredict MLRouter_init_routes "/predict" (Json.obj [])
        (fun _ => UpstreamResult.transportFault "unused")
        = (500, ErrorResponse_model_dump
            ("validation error for PredictRequest: "
              ++ String.intercalate ", " (fieldProblems (Json.obj []))) "ValidationError") :=
  ⟨by decide,
    predict_malformed_500_details MLRouter_init_routes "/predict" (Json.obj [])
      (fun _ => UpstreamResult.transportFault "unused") (by decide)⟩

/-- C6 counterexample: the empty JSON object is missing both required
fields, yet the caller receives status 500, not a 4xx-class status,
refuting the claim as stated. -/
theorem predict_malformed_counterexample :
    (handlePredict MLRouter_init_routes "/predict" (Json.obj [])
      (fun _ => UpstreamResult.transportFault "down")).fst = 500
    ∧ ¬(400 ≤ (handlePredict MLRouter_init_routes "/predict" (Json.obj [])
        (fun _ => UpstreamResult.transportFault "down")).fst
      ∧ (handlePredict MLRouter_init_routes "/predict" (Json.obj [])
        (fun _ => UpstreamResult.transportFault "down")).fst < 500) :=
  ⟨rfl, by decide⟩

/-- C7 (corrected): every exception escaping the predict handler body is
caught at the server shell boundary and converted into a 500 response
whose body is the ErrorResponse dump built from str(exc) and the exception
type name - the exception detail is included, and the body is not the
fixed opaque payload of the in-handler except clause. -/
theorem boundary_converts_to_error_dump (routes : List (String × String)) (path : String)
    (body : Json) (upstream : OutboundRequest → UpstreamResult)
    (exc : PyExc) (reqs : List OutboundRequest)
    (h : predict routes path body upstream = (HandlerStep.raised exc, reqs)) :
    handlePredict routes path body upstream
      = (500, ErrorResponse_model_dump (str_exc exc) (type_name exc)) := by
  simp [handlePredict, h]
  rfl

/-- C7 witness: the unknown-model ValueError for gamma escapes the handler
and the boundary converts it into the 500 error dump carrying its message. -/
theorem boundary_converts_to_error_dump_witness :
    handlePredict MLRouter_init_routes "/predict"
      (Json.obj [("model", Json.str "gamma"), ("model_data", Json.obj [])])
      (fun _ => UpstreamResult.transportFault "unused")
      = (500, ErrorResponse_model_dump
          (str_exc (PyExc.valueError ("Unknown model: '" ++ "gamma" ++ "'")))
          (type_name (PyExc.valueError ("Unknown model: '" ++ "gamma" ++ "'")))) :=
  boundary_converts_to_error_dump MLRouter_init_routes "/predict"
    (Json.obj [("model", Json.str "gamma"), ("model_data", Json.obj [])])
    (fun _ => UpstreamResult.transportFault "unused")
    (PyExc.valueError ("Unknown model: '" ++ "gamma" ++ "'")) [] rfl

/-- C7 counterexample: an unanticipated fault (the unknown-model
ValueError for gamma reaching the outer boundary) produces a 500 whose
body carries the exception message and type name and differs from the
fixed payload, refuting that the boundary response is exactly the opaque
error object with no details. -/
theorem boundary_detail_counterexample :
    handlePredict MLRouter_init_routes "/predict"
      (Json.obj [("model", Json.str "gamma"), ("model_data", Json.obj [])])
      (fun _ => UpstreamResult.transportFault "unused")
      = (500, ErrorResponse_model_dump "Unknown model: 'gamma'" "ValueError")
    ∧ (handlePredict MLRouter_init_routes "/predict"
        (Json.obj [("model", Json.str "gamma"), ("model_data", Json.obj [])])
        (fun _ => UpstreamResult.transportFault "unused")).snd
      ≠ unexpectedErrorBody := by
  refine ⟨rfl, ?_⟩
  intro hcontra
  have hlen := congrArg List.length (Json.obj.inj
    (hcontra.trans (rfl : unexpectedErrorBody = Json.obj [("error", Json.str "Unexpected error")])))
  exact absurd hlen (by decide)

/-- C8: whenever the model resolves, the handler issues exactly one
outbound request: a POST whose URL is the resolved base address
concatenated with the original inbound path, and whose body is the
request's model_data unchanged - whatever the upstream then does. -/
theorem predict_outbound_single_post (routes : List (String × String)) (path : String)
    (body : Json) (upstream : OutboundRequest → UpstreamResult)
    (r : PredictRequest) (route : String)
    (hv : model_validate body = Except.ok r)
    (hm : routes.lookup r.model = some route) :
    (predict routes path body upstream).snd
        = [{ base := route, path := path, method := "POST", body := r.model_data }]
    ∧ OutboundRequest.url
        { base := route, path := path, method := "POST", body := r.model_data }
        = route ++ path := by
  refine ⟨?_, rfl⟩
  simp only [predict, hv, hm]
  cases hres : upstream { base := route, path := path, method := "POST", body := r.model_data } with
  | responded status b => cases b <;> simp [hres]
  | transportFault reason => simp [hres]

/-- C8 witness: the spec scenario table - model1 resolves and a single
POST to the base address joined with /predict carries model_data. -/
theorem predict_outbound_single_post_witness :
    (predict MLRouter_init_routes "/predict"
      (Json.obj [("model", Json.str "model1"), ("model_data", Json.obj [("x", Json.num 1)])])
      (fun _ => UpstreamResult.responded 200 (some (Json.obj [("y", Json.num 2)])))).snd
      = [{ base := "http://0.0.0.0:8001", path := "/predict", method := "POST",
           body := [("x", Json.num 1)] }]
    ∧ OutboundRequest.url
        { base := "http://0.0.0.0:8001", path := "/predict", method := "POST",
          body := [("x", Json.num 1)] }
        = "http://0.0.0.0:8001" ++ "/predict" :=
  predict_outbound_single_post MLRouter_init_routes "/predict"
    (Json.obj [("model", Json.str "model1"), ("model_data", Json.obj [("x", Json.num 1)])])
    (fun _ => UpstreamResult.responded 200 (some (Json.obj [("y", Json.num 2)])))
    ⟨[("x", Json.num 1)], "model1"⟩ "http://0.0.0.0:8001" rfl rfl

/-- C9 (corrected): the predict handler resolves against the in-memory
table fixed in MLRouter.__init__ and never reads the backing store - any
two store states give identical responses - whereas ModelRoutes.get_route
(not referenced by the handler) does look up the store state passed at
call time. -/
theorem resolution_ignores_store (store1 store2 : Option (List (String × String)))
    (path : String) (body : Json) (upstream : OutboundRequest → UpstreamResult) :
    MLRouter_handlePredict store1 path body upstream
      = MLRouter_handlePredict store2 path body upstream
    ∧ ∀ (routes_dict : List (String × String)) (name addr : String),
        routes_dict.lookup name = some addr →
        get_route (some routes_dict) name = Except.ok addr := by
  refine ⟨rfl, ?_⟩
  intro routes_dict name addr h
  simp [get_route, h]

/-- C9 witness: instantiating the store-independence at two concrete
stores and get_route at a concrete present store. -/
theorem resolution_ignores_store_witness :
    MLRouter_handlePredict (some [("model1", "http://changed:9999")]) "/predict"
      (Json.obj [("model", Json.str "model1"), ("model_data", Json.obj [])])
      (fun req => UpstreamResult.responded 200 (some (Json.str req.base)))
      = MLRouter_handlePredict none "/predict"
        (Json.obj [("model", Json.str "model1"), ("model_data", Json.obj [])])
        (fun req => UpstreamResult.responded 200 (some (Json.str req.base)))
    ∧ get_route (some [("model1", "http://changed:9999")]) "model1"
      = Except.ok "http://changed:9999" :=
  ⟨(resolution_ignores_store (some [("model1", "http://changed:9999")]) none "/predict"
      (Json.obj [("model", Json.str "model1"), ("model_data", Json.obj [])])
      (fun req => UpstreamResult.responded 200 (some (Json.str req.base)))).1,
    (resolution_ignores_store (some [("model1", "http://changed:9999")]) none "/predict"
      (Json.obj [("model", Json.str "model1"), ("model_data", Json.obj [])])
      (fun req => UpstreamResult.responded 200 (some (Json.str req.base)))).2
      [("model1", "http://changed:9999")] "model1" "http://changed:9999" rfl⟩

/-- C9 counterexample: the backing store maps model1 to a changed address,
yet the request is forwarded to the address baked in at initialization and
the response is identical to the store-absent case - a store change
between requests is not observed by the handler. -/
theorem store_change_unobserved :
    MLRouter_handlePredict (some [("model1", "http://changed:9999")]) "/predict"
      (Json.obj [("model", Json.str "model1"), ("model_data", Json.obj [])])
      (fun req => UpstreamResult.responded 200 (some (Json.str req.base)))
      = MLRouter_handlePredict none "/predict"
        (Json.obj [("model", Json.str "model1"), ("model_data", Json.obj [])])
        (fun req => UpstreamResult.responded 200 (some (Json.str req.base)))
    ∧ (MLRouter_handlePredict (some [("model1", "http://changed:9999")]) "/predict"
        (Json.obj [("model", Json.str "model1"), ("model_data", Json.obj [])])
        (fun req => UpstreamResult.responded 200 (some (Json.str req.base)))).snd
      = Json.str "http://0.0.0.0:8001" :=
  ⟨rfl, rfl⟩

/-- C10: when the upstream responds but its body is not decodable JSON,
the except clause of the forwarding block catches the decoding failure and
the caller receives 500 with the fixed opaque payload rather than the
upstream status and body. -/
theorem predict_bad_upstream_json_opaque (routes : List (String × String)) (path : String)
    (body : Json) (upstream : OutboundRequest → UpstreamResult)
    (r : PredictRequest) (route : String) (S : Nat)
    (hv : model_validate body = Except.ok r)
    (hm : routes.lookup r.model = some route)
    (hu : upstream { base := route, path := path, method := "POST", body := r.model_data }
        = UpstreamResult.responded S none) :
    handlePredict routes path body upstream = (500, unexpectedErrorBody) := by
  simp [handlePredict, predict, hv, hm, hu]

/-- C10 witness: the upstream answers 200 with an undecodable body; the
caller receives the opaque 500 payload. -/
theorem predict_bad_upstream_json_opaque_witness :
    handlePredict MLRouter_init_routes "/predict"
      (Json.obj [("model", Json.str "model2"), ("model_data", Json.obj [])])
      (fun _ => UpstreamResult.responded 200 none)
      = (500, unexpectedErrorBody) :=
  predict_bad_upstream_json_opaque MLRouter_init_routes "/predict"
    (Json.obj [("model", Json.str "model2"), ("model_data", Json.obj [])])
    (fun _ => UpstreamResult.responded 200 none)
    ⟨[], "model2"⟩ "http://0.0.0.0:8002" 200 rfl rfl rfl

end MLAPI
